import Mathlib

/-!
Verification of the lattice session/thread manager: agent and model
resolution, message-history selection and merging, and thread lifecycle
operations, shallowly embedded from the Python sources under
`lattice/server/` together with spec-modelled definitions for the modules
whose implementation files are not part of the sources at hand
(the agent registry, the message merger and the session store).
-/

namespace Lattice

/-! ### Python-semantics helpers -/

/-- Truthiness of an optional string, as Python evaluates `if x:` for
`x : str | None` — `None` and the empty string are falsy. -/
def pyTruthy : Option String → Bool
  | none => false
  | some s => !s.isEmpty

/-- Python `x or y` for optional strings: keeps `x` when it is truthy. -/
def pyOr : Option String → Option String → Option String
  | none, y => y
  | some s, y => if s.isEmpty then y else some s

/-- Does `hay` start with `needle` (character lists)? -/
def listStartsWith : List Char → List Char → Bool
  | _, [] => true
  | [], _ :: _ => false
  | h :: hs, n :: ns => h = n && listStartsWith hs ns

/-- Does `needle` occur contiguously inside `hay` (character lists)?
Mirrors the Python `needle in hay` substring test. -/
def listHasSub (hay needle : List Char) : Bool :=
  match hay with
  | [] => needle.isEmpty
  | _ :: t => listStartsWith hay needle || listHasSub t needle

/-- Python substring containment `needle in hay` on strings. -/
def strHasSub (hay needle : String) : Bool :=
  listHasSub hay.data needle.data

/-- Python `str.lower()`, character by character. -/
def strLower (s : String) : String :=
  String.mk (s.data.map Char.toLower)

/-- Python `str.strip()`: surrounding whitespace removed. -/
def strStrip (s : String) : String :=
  String.mk (((s.data.dropWhile Char.isWhitespace).reverse.dropWhile
    Char.isWhitespace).reverse)

/-- Replace-or-append into an association list; models assigning into a
Python dict at key `k`. -/
def setAssoc {κ ν : Type} [BEq κ] : List (κ × ν) → κ → ν → List (κ × ν)
  | [], k, v => [(k, v)]
  | (k', v') :: rest, k, v =>
      if k' == k then (k, v) :: rest else (k', v') :: setAssoc rest k v

/-! ### Data model

`AgentPlugin` is embedded from `lattice/agents/plugin.py` as used by the
sources at hand: an id, a display name, an optional configured default
model, and two optional capabilities.  A capability that the Python side
invokes and that may raise is embedded as an `Except` value: `list_models`
either yields a list of model names or fails, `validate_model` either
accepts a name or fails with a message. -/

structure AgentPlugin where
  id : String
  name : String
  default_model : Option String := none
  list_models : Option (Except Unit (List String)) := none
  validate_model : Option (String → Except String Unit) := none

/-- Modelled from the spec: `ThreadSettings` (from `lattice/domain/sessions.py`,
not among the sources at hand) — the per-(session, thread) mutable record
with `agent : id | None`, `None` meaning the registry default. -/
structure ThreadSettings where
  agent : Option String := none
deriving DecidableEq, Repr

/-- A chat message as the history-selection logic sees it: only the role
is inspected; the payload rides along untouched. -/
structure UIMessage where
  role : String
  content : String
deriving DecidableEq, Repr

/-- Modelled from the spec: the session store contract (`SessionStore` of
`lattice/core/session.py`, not among the sources at hand) — a durable
mapping from (session, thread) to settings and message history, plus a
per-session model override.  Association lists embed the dict-backed
store. -/
structure Store where
  threadSettings : List ((String × String) × ThreadSettings) := []
  sessionModels : List (String × Option String) := []
  threadMessages : List ((String × String) × List UIMessage) := []
deriving DecidableEq, Repr

/-- `store.get_thread_settings`: stored record, or a fresh default when
the thread has none yet (lazy creation). -/
def get_thread_settings (store : Store) (session_id thread_id : String) : ThreadSettings :=
  (store.threadSettings.lookup (session_id, thread_id)).getD {}

/-- `store.set_thread_settings`. -/
def set_thread_settings (store : Store) (session_id thread_id : String)
    (settings : ThreadSettings) : Store :=
  { store with threadSettings := setAssoc store.threadSettings (session_id, thread_id) settings }

/-- `store.get_session_model`: the stored per-session override, if any. -/
def get_session_model (store : Store) (session_id : String) : Option String :=
  (store.sessionModels.lookup session_id).getD none

/-- `store.set_session_model` (a `None` value clears the override). -/
def set_session_model_store (store : Store) (session_id : String)
    (value : Option String) : Store :=
  { store with sessionModels := setAssoc store.sessionModels session_id value }

/-- `store.save_thread`: persisted history is replaced wholesale. -/
def save_thread (store : Store) (session_id thread_id : String)
    (messages : List UIMessage) : Store :=
  { store with threadMessages := setAssoc store.threadMessages (session_id, thread_id) messages }

/-- Modelled from the spec: `list_threads` (from `lattice/core/threads.py`,
not among the sources at hand) — the ids of the threads existing in a
session, in store order. -/
def list_threads (store : Store) (session_id : String) : List String :=
  (store.threadMessages.filter (fun e => e.1.1 == session_id)).map (fun e => e.1.2)

/-! ### Agent registry -/

/-- `AgentRegistry` from `lattice/agents/registry.py`: the id-keyed plugin
dict (embedded as an ordered association list) and the default agent id. -/
structure AgentRegistry where
  agents : List (String × AgentPlugin)
  default_agent : String

/-- The registered agent ids (the keys of the `agents` dict). -/
def regKeys (reg : AgentRegistry) : List String :=
  reg.agents.map (fun e => e.1)

/-- Dict lookup `registry.agents[i]`, `none` standing for `KeyError`. -/
def lookupAgent (reg : AgentRegistry) (i : String) : Option AgentPlugin :=
  reg.agents.lookup i

/-- Registry well-formedness: ids unique and the default agent registered
(both invariants stated by the spec for `AgentRegistry`). -/
structure RegistryWF (reg : AgentRegistry) : Prop where
  nodup : (regKeys reg).Nodup
  default_mem : reg.default_agent ∈ regKeys reg

/-- Does the registry entry match the query case-insensitively, by
id-substring or name-substring? -/
def matchesQuery (query : String) (entry : String × AgentPlugin) : Bool :=
  strHasSub (strLower entry.1) (strLower query) ||
    strHasSub (strLower entry.2.name) (strLower query)

/-- The registry entries the query matches fuzzily. -/
def fuzzyMatches (reg : AgentRegistry) (query : String) : List (String × AgentPlugin) :=
  reg.agents.filter (matchesQuery query)

/-- Modelled from the spec: `AgentRegistry.resolve_id`
(`lattice/agents/registry.py` is not among the sources at hand).  Exact
match on id first; with `allow_fuzzy` and no exact match, a unique
case-insensitive id- or name-substring match resolves, while zero or
several matches yield `none`. -/
def resolve_id (reg : AgentRegistry) (query : String) (allow_fuzzy : Bool) : Option String :=
  if query ∈ regKeys reg then some query
  else if allow_fuzzy then
    match fuzzyMatches reg query with
    | [entry] => some entry.1
    | _ => none
  else none

/-! ### Model resolution (`lattice/server/runtime.py` and
`lattice/server/services/models.py`)

The process environment is passed explicitly as a lookup function
(`os.getenv`); an unset variable is `none`. -/

/-- `list_models` of `lattice/server/services/models.py`: a missing
capability or a failing call both give the empty list. -/
def list_models_swallow (plugin : AgentPlugin) : List String :=
  match plugin.list_models with
  | none => []
  | some (Except.ok ms) => ms
  | some (Except.error _) => []

/-- `read_env` of `lattice/settings/env.py`: the variable stripped, and
`none` when unset or blank. -/
def read_env (env : String → Option String) (name : String) : Option String :=
  match env name with
  | none => none
  | some v => let v := strStrip v; if v.isEmpty then none else some v

/-- `first_env` of `lattice/settings/env.py`: the first name whose
`read_env` value is present. -/
def first_env (env : String → Option String) : List String → Option String
  | [] => none
  | n :: rest =>
      match read_env env n with
      | some v => some v
      | none => first_env env rest

namespace Runtime

/-- `resolve_default_model` of `lattice/server/runtime.py`: the configured
default model if non-blank, else the stripped value of
`os.getenv("AGENT_MODEL") or os.getenv("LATTICE_MODEL") or ""` if
non-blank, else the first listed model, else the empty string.  A failing
`list_models` call is swallowed into the empty list. -/
def resolve_default_model (env : String → Option String) (plugin : AgentPlugin) : String :=
  let configured := strStrip (plugin.default_model.getD "")
  if !configured.isEmpty then configured
  else
    let envVal := strStrip ((pyOr (env "AGENT_MODEL") (env "LATTICE_MODEL")).getD "")
    if !envVal.isEmpty then envVal
    else
      match list_models_swallow plugin with
      | [] => ""
      | m :: _ => m

end Runtime

namespace Services

/-- `resolve_default_model` of `lattice/server/services/models.py`: the
configured default model if non-blank, else `first_env(AGENT_MODEL,
LATTICE_MODEL)` if present, else the first listed model, else the empty
string. -/
def resolve_default_model (env : String → Option String) (plugin : AgentPlugin) : String :=
  let configured := strStrip (plugin.default_model.getD "")
  if !configured.isEmpty then configured
  else
    let env_model := first_env env ["AGENT_MODEL", "LATTICE_MODEL"]
    if pyTruthy env_model then env_model.getD ""
    else
      match list_models_swallow plugin with
      | [] => ""
      | m :: _ => m

end Services

/-! ### Agent resolution (`lattice/server/runtime.py`) -/

/-- `resolve_agent_plugin` of `lattice/server/runtime.py`: a truthy stored
agent id is resolved exactly (no fuzzing) against the live registry; on
success the matching plugin is returned, otherwise the registry default.
`Except.error k` embeds the `KeyError k` a failing dict lookup would
raise. -/
def resolve_agent_plugin (reg : AgentRegistry) (store : Store)
    (session_id thread_id : String) : Except String (String × AgentPlugin) :=
  let stored := (get_thread_settings store session_id thread_id).agent
  if pyTruthy stored then
    match resolve_id reg (stored.getD "") false with
    | some resolved =>
        match lookupAgent reg resolved with
        | some plugin => Except.ok (resolved, plugin)
        | none => Except.error resolved
    | none =>
        match lookupAgent reg reg.default_agent with
        | some plugin => Except.ok (reg.default_agent, plugin)
        | none => Except.error reg.default_agent
  else
    match lookupAgent reg reg.default_agent with
    | some plugin => Except.ok (reg.default_agent, plugin)
    | none => Except.error reg.default_agent

/-! ### Agents router (`lattice/server/routers/agents.py`) -/

/-- The `ThreadAgentResponse` payload returned by the agents router. -/
structure ThreadAgentResponse where
  agent : String
  default_agent : String
  is_default : Bool
  agent_name : String
deriving DecidableEq, Repr

/-- The failures the agents router can surface: the 400 raised for an
unknown or ambiguous agent (carrying the offending query and the sorted
distinct display names), or a `KeyError` from a dict lookup. -/
inductive AgentsApiError
  | unknownAgent (query : String) (available : List String)
  | keyError (key : String)
deriving DecidableEq, Repr

/-- The sorted set of distinct display names, as the router builds
`sorted({plugin.name for plugin in ctx.registry.agents.values()})`. -/
def availableNames (reg : AgentRegistry) : List String :=
  ((reg.agents.map (fun e => e.2.name)).dedup).mergeSort (fun a b => decide (a ≤ b))

/-- `api_get_thread_agent` of `lattice/server/routers/agents.py`. -/
def api_get_thread_agent (reg : AgentRegistry) (store : Store)
    (session_id thread_id : String) : Except String ThreadAgentResponse :=
  match resolve_agent_plugin reg store session_id thread_id with
  | Except.error k => Except.error k
  | Except.ok (agent_id, plugin) =>
      Except.ok { agent := agent_id, default_agent := reg.default_agent,
                  is_default := agent_id == reg.default_agent, agent_name := plugin.name }

/-- `api_set_thread_agent` of `lattice/server/routers/agents.py`, with the
store threaded explicitly: a truthy (stripped) request is fuzzily
resolved — failure raises before anything is persisted — and the resolved
id is stored; a blank or absent request clears the stored agent.  The
returned store is the store after the call. -/
def api_set_thread_agent (reg : AgentRegistry) (store : Store)
    (session_id thread_id : String) (payload_agent : Option String) :
    Store × Except AgentsApiError ThreadAgentResponse :=
  let default_agent := reg.default_agent
  let settings := get_thread_settings store session_id thread_id
  let requested := payload_agent.map (fun s => strStrip s)
  if pyTruthy requested then
    match resolve_id reg (requested.getD "") true with
    | none =>
        (store, Except.error (AgentsApiError.unknownAgent (requested.getD "") (availableNames reg)))
    | some resolved =>
        let store' := set_thread_settings store session_id thread_id
          { settings with agent := some resolved }
        match lookupAgent reg resolved with
        | none => (store', Except.error (AgentsApiError.keyError resolved))
        | some plugin =>
            (store', Except.ok { agent := resolved, default_agent := default_agent,
                                 is_default := resolved == default_agent,
                                 agent_name := plugin.name })
  else
    let store' := set_thread_settings store session_id thread_id
      { settings with agent := none }
    match lookupAgent reg default_agent with
    | none => (store', Except.error (AgentsApiError.keyError default_agent))
    | some plugin =>
        (store', Except.ok { agent := default_agent, default_agent := default_agent,
                             is_default := default_agent == default_agent,
                             agent_name := plugin.name })

/-! ### Session model service (`lattice/server/services/models.py`) -/

/-- The `ModelSelection` record of `lattice/server/services/models.py`. -/
structure ModelSelection where
  model : String
  default_model : String
deriving DecidableEq, Repr

/-- The `is_default` property of `ModelSelection`: value equality of the
selected model with the resolved default. -/
def ModelSelection.is_default (s : ModelSelection) : Bool :=
  s.model == s.default_model

/-- `set_session_model` of `lattice/server/services/models.py`, store
threaded explicitly: a truthy (stripped) request must pass
`plugin.validate_model` when that capability is present — a rejection
propagates (`Except.error` with the plugin message) before anything is
persisted; on acceptance the override is stored.  A blank or absent
request clears the override and the selection reverts to the resolved
default. -/
def set_session_model (env : String → Option String) (store : Store)
    (session_id : String) (plugin : AgentPlugin) (requested : Option String) :
    Store × Except String ModelSelection :=
  let default_model := Services.resolve_default_model env plugin
  let model := requested.map (fun s => strStrip s)
  if pyTruthy model then
    let m := model.getD ""
    match plugin.validate_model with
    | some validate =>
        match validate m with
        | Except.error msg => (store, Except.error msg)
        | Except.ok _ =>
            (set_session_model_store store session_id (some m),
             Except.ok { model := m, default_model := default_model })
    | none =>
        (set_session_model_store store session_id (some m),
         Except.ok { model := m, default_model := default_model })
  else
    (set_session_model_store store session_id none,
     Except.ok { model := default_model, default_model := default_model })

/-! ### Models router (`lattice/server/routers/models.py`) -/

/-- The `SessionModelResponse` payload of the models router. -/
structure SessionModelResponse where
  model : String
  default_model : String
  is_default : Bool
deriving DecidableEq, Repr

/-- The failures the models router can surface: the 400 carrying the
plugin validation message, or a `KeyError` from the registry dict. -/
inductive ModelsApiError
  | validation (msg : String)
  | keyError (key : String)
deriving DecidableEq, Repr

/-- `api_set_session_model` of `lattice/server/routers/models.py`, store
threaded explicitly.  The default plugin is
`registry.agents[registry.default_agent]` and the default model comes
from the runtime `resolve_default_model`.  A truthy (stripped) request is
validated by the default plugin when that capability is present — a
rejection is surfaced before anything is persisted — and then stored; a
blank or absent request clears the override. -/
def api_set_session_model (env : String → Option String) (reg : AgentRegistry)
    (store : Store) (session_id : String) (payload_model : Option String) :
    Store × Except ModelsApiError SessionModelResponse :=
  match lookupAgent reg reg.default_agent with
  | none => (store, Except.error (ModelsApiError.keyError reg.default_agent))
  | some default_plugin =>
      let default_model := Runtime.resolve_default_model env default_plugin
      let model := payload_model.map (fun s => strStrip s)
      if pyTruthy model then
        let m := model.getD ""
        match default_plugin.validate_model with
        | some validate =>
            match validate m with
            | Except.error msg => (store, Except.error (ModelsApiError.validation msg))
            | Except.ok _ =>
                (set_session_model_store store session_id (some m),
                 Except.ok { model := m, default_model := default_model,
                             is_default := m == default_model })
        | none =>
            (set_session_model_store store session_id (some m),
             Except.ok { model := m, default_model := default_model,
                         is_default := m == default_model })
      else
        (set_session_model_store store session_id none,
         Except.ok { model := default_model, default_model := default_model,
                     is_default := default_model == default_model })

/-! ### Message history selection (`lattice/server/services/sessions.py`) -/

/-- `incoming_has_history`: does the set of roles of the incoming
messages intersect `{assistant, system}`? -/
def incoming_has_history (msgs : List UIMessage) : Bool :=
  !((msgs.map (fun m => m.role)).filter
      (fun r => r == "assistant" || r == "system")).isEmpty

/-- `select_message_history`: an incoming payload that already carries
history gets an empty prior history, a user-only payload gets the full
stored history.  The stored messages are passed through untouched, so
their type is generic. -/
def select_message_history {α : Type} (incoming : List UIMessage)
    (stored : List α) : List α :=
  if incoming_has_history incoming then [] else stored

/-- Modelled from the spec: `merge_messages` of `lattice/core/messages.py`
(not among the sources at hand) — the canonical history is the base
history, then the incoming messages, then the newly produced messages,
each concatenation preserving the original order, with no re-ordering,
re-keying or deduplication. -/
def merge_messages {α : Type} (history_base incoming_messages newly_produced : List α) :
    List α :=
  history_base ++ incoming_messages ++ newly_produced

/-! ### Threads router (`lattice/server/routers/threads.py`) -/

/-- The failure the clear endpoint can surface: thread not found (404). -/
inductive ThreadApiError
  | threadNotFound
deriving DecidableEq, Repr

/-- `api_clear_thread` of `lattice/server/routers/threads.py`, store
threaded explicitly: a missing thread is a 404; otherwise the thread
history is overwritten with the empty list (`save_thread(..., messages=[])`).
The response carries the cleared thread id. -/
def api_clear_thread (store : Store) (session_id thread_id : String) :
    Store × Except ThreadApiError String :=
  if thread_id ∈ list_threads store session_id then
    (save_thread store session_id thread_id [], Except.ok thread_id)
  else
    (store, Except.error ThreadApiError.threadNotFound)

/-! ### Helper lemmas -/

theorem pyTruthy_some {o : Option String} (h : pyTruthy o = true) :
    ∃ s, o = some s ∧ s.isEmpty = false := by
  cases o with
  | none => simp [pyTruthy] at h
  | some s => exact ⟨s, rfl, by simpa [pyTruthy] using h⟩

theorem lookup_isSome_of_mem_keys {α β : Type} [BEq α] [LawfulBEq α]
    {l : List (α × β)} {q : α} (h : q ∈ l.map Prod.fst) :
    ∃ v, l.lookup q = some v := by
  induction l with
  | nil => simp at h
  | cons hd tl ih =>
      obtain ⟨k, v⟩ := hd
      by_cases hq : q = k
      · exact ⟨v, by simp [List.lookup, hq]⟩
      · have hb : (q == k) = false := by simp [hq]
        have h2 : q ∈ tl.map Prod.fst := by
          rw [List.map_cons, List.mem_cons] at h
          exact h.resolve_left hq
        obtain ⟨w, hw⟩ := ih h2
        exact ⟨w, by simp [List.lookup, hb, hw]⟩

theorem lookup_setAssoc_self {α β : Type} [BEq α] [LawfulBEq α]
    (l : List (α × β)) (k : α) (v : β) :
    (setAssoc l k v).lookup k = some v := by
  induction l with
  | nil => simp [setAssoc, List.lookup]
  | cons hd tl ih =>
      obtain ⟨k', v'⟩ := hd
      by_cases hk : k' = k
      · simp [setAssoc, hk, List.lookup]
      · have hkk : ¬k = k' := fun h => hk h.symm
        have hb : (k == k') = false := by simp [hkk]
        simp [setAssoc, hk, List.lookup, hb, ih]

theorem mem_lookupAgent {reg : AgentRegistry} {q : String} (h : q ∈ regKeys reg) :
    ∃ p, lookupAgent reg q = some p :=
  lookup_isSome_of_mem_keys (by simpa [regKeys] using h)

theorem resolve_id_exact {reg : AgentRegistry} {q : String} (h : q ∈ regKeys reg)
    (b : Bool) : resolve_id reg q b = some q := by
  simp [resolve_id, h]

theorem resolve_id_not_mem_strict {reg : AgentRegistry} {q : String}
    (h : q ∉ regKeys reg) : resolve_id reg q false = none := by
  simp [resolve_id, h]

theorem isEmpty_false_of_ne {s : String} (h : s ≠ "") : s.isEmpty = false := by
  rw [Bool.eq_false_iff]
  intro he
  exact h ((String.isEmpty_iff s).mp he)

theorem resolve_id_unique_match {reg : AgentRegistry} {q : String}
    (hq : q ∉ regKeys reg) (hc : reg.agents.countP (matchesQuery q) = 1) :
    ∃ e ∈ reg.agents, matchesQuery q e = true ∧ resolve_id reg q true = some e.1 := by
  rw [List.countP_eq_length_filter] at hc
  obtain ⟨e, he⟩ := List.length_eq_one.mp hc
  obtain ⟨hmem, hmatch⟩ := List.mem_filter.mp (he ▸ List.mem_singleton_self e)
  exact ⟨e, hmem, hmatch, by simp [resolve_id, hq, fuzzyMatches, he]⟩

theorem resolve_id_ambiguous {reg : AgentRegistry} {q : String}
    (hq : q ∉ regKeys reg) (hc : reg.agents.countP (matchesQuery q) ≠ 1) :
    resolve_id reg q true = none := by
  rw [List.countP_eq_length_filter] at hc
  cases hf : reg.agents.filter (matchesQuery q) with
  | nil => simp [resolve_id, hq, fuzzyMatches, hf]
  | cons e rest =>
      cases rest with
      | nil => rw [hf] at hc; exact absurd rfl hc
      | cons f rest' => simp [resolve_id, hq, fuzzyMatches, hf]

theorem resolve_id_mem {reg : AgentRegistry} {q r : String} {b : Bool}
    (h : resolve_id reg q b = some r) : r ∈ regKeys reg := by
  unfold resolve_id at h
  by_cases hq : q ∈ regKeys reg
  · simp [hq] at h; simpa [← h] using hq
  · simp only [hq, if_false, if_neg] at h
    cases b with
    | false => simp at h
    | true =>
        simp only [if_true] at h
        cases hm : fuzzyMatches reg q with
        | nil => rw [hm] at h; simp at h
        | cons e rest =>
            cases rest with
            | nil =>
                rw [hm] at h
                simp only [Option.some.injEq] at h
                have he : e ∈ reg.agents :=
                  (List.mem_filter.mp (hm ▸ List.mem_singleton_self e)).1
                exact h ▸ List.mem_map.mpr ⟨e, he, rfl⟩
            | cons f rest' => rw [hm] at h; simp at h

/-- C2: if any incoming message has role assistant or system,
`select_message_history` returns the empty history; if all incoming
roles are user-only, it returns exactly the full stored history,
unchanged and in order. -/
theorem select_message_history_policy {α : Type} (incoming : List UIMessage)
    (stored : List α) :
    ((∃ m ∈ incoming, m.role = "assistant" ∨ m.role = "system") →
        select_message_history incoming stored = []) ∧
    ((∀ m ∈ incoming, m.role = "user") →
        select_message_history incoming stored = stored) := by
  constructor
  · rintro ⟨m, hm, hrole⟩
    have hmem : m.role ∈ (incoming.map (fun m => m.role)).filter
        (fun r => r == "assistant" || r == "system") :=
      List.mem_filter.mpr ⟨List.mem_map.mpr ⟨m, hm, rfl⟩, by
        rcases hrole with h | h <;> simp [h]⟩
    have hh : incoming_has_history incoming = true := by
      unfold incoming_has_history
      cases hf : (incoming.map (fun m => m.role)).filter
          (fun r => r == "assistant" || r == "system") with
      | nil => exact absurd hf (List.ne_nil_of_mem hmem)
      | cons a l => rfl
    simp [select_message_history, hh]
  · intro hall
    have hf : (incoming.map (fun m => m.role)).filter
        (fun r => r == "assistant" || r == "system") = [] := by
      rw [List.filter_eq_nil_iff]
      intro r hr
      obtain ⟨m, hm, rfl⟩ := List.mem_map.mp hr
      simp [hall m hm]
    have hh : incoming_has_history incoming = false := by
      unfold incoming_has_history; rw [hf]; rfl
    simp [select_message_history, hh]

/-- C2 witness. -/
theorem select_message_history_policy_witness :
    select_message_history [UIMessage.mk "assistant" "hi"] [1, 2] = ([] : List Nat) ∧
    select_message_history [UIMessage.mk "user" "hi"] [1, 2] = [1, 2] :=
  ⟨(select_message_history_policy [UIMessage.mk "assistant" "hi"] [1, 2]).1
      ⟨UIMessage.mk "assistant" "hi", by simp, Or.inl rfl⟩,
   (select_message_history_policy [UIMessage.mk "user" "hi"] [1, 2]).2
      (by intro m hm; simp at hm; simp [hm])⟩

/-- C3: `merge_messages a b c` is the concatenation of its three inputs —
size-additive, its initial segment of length `len a` is `a`, the next
`len b` entries are `b`, and the remainder is `c`, so the relative order
within each input is preserved with no reordering or deduplication. -/
theorem merge_messages_concat {α : Type} (a b c : List α) :
    (merge_messages a b c).length = a.length + b.length + c.length ∧
    (merge_messages a b c).take a.length = a ∧
    ((merge_messages a b c).drop a.length).take b.length = b ∧
    (merge_messages a b c).drop (a.length + b.length) = c := by
  refine ⟨by simp [merge_messages, Nat.add_assoc], ?_, ?_, ?_⟩
  · rw [merge_messages, List.append_assoc]
    exact List.take_left a (b ++ c)
  · rw [merge_messages, List.append_assoc, List.drop_left]
    exact List.take_left b c
  · rw [merge_messages,
      show a.length + b.length = (a ++ b).length from (List.length_append a b).symm]
    exact List.drop_left (a ++ b) c

theorem resolve_agent_plugin_ok (reg : AgentRegistry) (store : Store)
    (sid tid : String) (hwf : RegistryWF reg) :
    ∃ i p, resolve_agent_plugin reg store sid tid = Except.ok (i, p) ∧
      i ∈ regKeys reg ∧ lookupAgent reg i = some p := by
  obtain ⟨pd, hpd⟩ := mem_lookupAgent hwf.default_mem
  cases ht : pyTruthy (get_thread_settings store sid tid).agent with
  | false =>
      exact ⟨reg.default_agent, pd, by simp [resolve_agent_plugin, ht, hpd],
        hwf.default_mem, hpd⟩
  | true =>
      by_cases hq : ((get_thread_settings store sid tid).agent.getD "") ∈ regKeys reg
      · obtain ⟨p, hp⟩ := mem_lookupAgent hq
        exact ⟨_, p, by simp [resolve_agent_plugin, ht, resolve_id_exact hq, hp], hq, hp⟩
      · exact ⟨reg.default_agent, pd,
          by simp [resolve_agent_plugin, ht, resolve_id_not_mem_strict hq, hpd],
          hwf.default_mem, hpd⟩

/-! ### Concrete fixtures used by the witnesses -/

def pluginAlpha : AgentPlugin := { id := "alpha", name := "Alpha" }

def pluginBeta : AgentPlugin := { id := "beta", name := "Beta Agent" }

def regW : AgentRegistry :=
  { agents := [("alpha", pluginAlpha), ("beta", pluginBeta)], default_agent := "alpha" }

def regWF : RegistryWF regW := ⟨by decide, by decide⟩

/-- A store whose thread ("s1", "t1") has a stored agent id that no
registered agent carries. -/
def storeGone : Store := { threadSettings := [(("s1", "t1"), { agent := some "gone" })] }

theorem storeGone_miss :
    ∀ i, (get_thread_settings storeGone "s1" "t1").agent = some i → i ∉ regKeys regW := by
  intro i h
  have h2 : (some "gone" : Option String) = some i := by rw [← h]; rfl
  injection h2 with h3
  subst h3
  decide

/-- C1: when the stored thread agent id is not a key of the registry,
`resolve_agent_plugin` returns the registry default agent and never
raises (no `KeyError` branch is taken); the response of the agent
endpoint always names a currently-registered agent and its `is_default`
flag is true exactly when the resolved id equals the registry default. -/
theorem select_agent_for_thread_falls_back (reg : AgentRegistry) (store : Store)
    (sid tid : String) (hwf : RegistryWF reg)
    (hmiss : ∀ i, (get_thread_settings store sid tid).agent = some i → i ∉ regKeys reg) :
    (∃ p, lookupAgent reg reg.default_agent = some p ∧
        resolve_agent_plugin reg store sid tid = Except.ok (reg.default_agent, p)) ∧
    (∀ store' : Store, ∃ r : ThreadAgentResponse,
        api_get_thread_agent reg store' sid tid = Except.ok r ∧
        r.agent ∈ regKeys reg ∧ (r.is_default = true ↔ r.agent = reg.default_agent)) := by
  obtain ⟨pd, hpd⟩ := mem_lookupAgent hwf.default_mem
  constructor
  · refine ⟨pd, hpd, ?_⟩
    cases ht : pyTruthy (get_thread_settings store sid tid).agent with
    | false => simp [resolve_agent_plugin, ht, hpd]
    | true =>
        obtain ⟨s, hs, _⟩ := pyTruthy_some ht
        have hnot : ((get_thread_settings store sid tid).agent.getD "") ∉ regKeys reg := by
          rw [hs]; exact hmiss s hs
        simp [resolve_agent_plugin, ht, resolve_id_not_mem_strict hnot, hpd]
  · intro store'
    obtain ⟨i, p, hok, hmem, _⟩ := resolve_agent_plugin_ok reg store' sid tid hwf
    refine ⟨{ agent := i, default_agent := reg.default_agent,
              is_default := i == reg.default_agent, agent_name := p.name },
      ?_, hmem, by simp⟩
    simp [api_get_thread_agent, hok]

/-- C1 witness. -/
theorem select_agent_for_thread_falls_back_witness :
    (∃ p, lookupAgent regW regW.default_agent = some p ∧
        resolve_agent_plugin regW storeGone "s1" "t1" =
          Except.ok (regW.default_agent, p)) ∧
    (∃ r : ThreadAgentResponse,
        api_get_thread_agent regW storeGone "s1" "t1" = Except.ok r ∧
        r.agent ∈ regKeys regW ∧ (r.is_default = true ↔ r.agent = regW.default_agent)) :=
  ⟨(select_agent_for_thread_falls_back regW storeGone "s1" "t1" regWF storeGone_miss).1,
   (select_agent_for_thread_falls_back regW storeGone "s1" "t1" regWF storeGone_miss).2
      storeGone⟩

/-- C4: `resolve_id` returns an exact id match when one exists; with
fuzzing enabled and no exact match it returns the single agent matching
case-insensitively by id-substring or name-substring when exactly one
does, and `none` when zero or several match — ambiguity surfaces as no
match. -/
theorem resolve_id_resolution (reg : AgentRegistry) (q : String) :
    (∀ b, q ∈ regKeys reg → resolve_id reg q b = some q) ∧
    (q ∉ regKeys reg → reg.agents.countP (matchesQuery q) = 1 →
        ∃ e ∈ reg.agents, matchesQuery q e = true ∧ resolve_id reg q true = some e.1) ∧
    (q ∉ regKeys reg → reg.agents.countP (matchesQuery q) ≠ 1 →
        resolve_id reg q true = none) := by
  exact ⟨fun b h => resolve_id_exact h b,
    fun hq hc => resolve_id_unique_match hq hc,
    fun hq hc => resolve_id_ambiguous hq hc⟩

/-- C4 witness: an exact id match, a unique fuzzy match and a
zero-candidate query against the two-agent fixture registry. -/
theorem resolve_id_resolution_witness :
    resolve_id regW "alpha" true = some "alpha" ∧
    (∃ e ∈ regW.agents, matchesQuery "be" e = true ∧
        resolve_id regW "be" true = some e.1) ∧
    resolve_id regW "zzz" true = none :=
  ⟨(resolve_id_resolution regW "alpha").1 true (by decide),
   (resolve_id_resolution regW "be").2.1 (by decide) (by decide),
   (resolve_id_resolution regW "zzz").2.2 (by decide) (by decide)⟩

/-- C5: a non-blank requested string that resolves to zero or to several
agents makes `api_set_thread_agent` fail with the unknown-agent error
naming the (stripped) offending query and the distinct display names,
and the store is returned unchanged — nothing is persisted on the error
path.  The name list is duplicate-free and holds exactly the registered
display names. -/
theorem set_thread_agent_unknown_persists_nothing (reg : AgentRegistry)
    (store : Store) (sid tid q : String) (hnb : strStrip q ≠ "")
    (hnx : strStrip q ∉ regKeys reg)
    (hamb : reg.agents.countP (matchesQuery (strStrip q)) ≠ 1) :
    api_set_thread_agent reg store sid tid (some q) =
      (store, Except.error (AgentsApiError.unknownAgent (strStrip q) (availableNames reg))) ∧
    (availableNames reg).Nodup ∧
    (∀ n, n ∈ availableNames reg ↔ n ∈ reg.agents.map (fun e => e.2.name)) := by
  refine ⟨?_, ?_, ?_⟩
  · have hrid : resolve_id reg (strStrip q) true = none := resolve_id_ambiguous hnx hamb
    simp [api_set_thread_agent, pyTruthy, isEmpty_false_of_ne hnb, hrid]
  · exact ((List.mergeSort_perm ((reg.agents.map (fun e => e.2.name)).dedup) _).nodup_iff).mpr
      (List.nodup_dedup _)
  · intro n
    rw [availableNames, (List.mergeSort_perm _ _).mem_iff, List.mem_dedup]

/-- C5 witness. -/
theorem set_thread_agent_unknown_persists_nothing_witness :
    api_set_thread_agent regW storeGone "s1" "t1" (some "zzz") =
      (storeGone, Except.error (AgentsApiError.unknownAgent "zzz" (availableNames regW))) ∧
    (availableNames regW).Nodup ∧
    ("Alpha" ∈ availableNames regW ↔ "Alpha" ∈ regW.agents.map (fun e => e.2.name)) :=
  ⟨(set_thread_agent_unknown_persists_nothing regW storeGone "s1" "t1" "zzz"
      (by decide) (by decide) (by decide)).1,
   (set_thread_agent_unknown_persists_nothing regW storeGone "s1" "t1" "zzz"
      (by decide) (by decide) (by decide)).2.1,
   (set_thread_agent_unknown_persists_nothing regW storeGone "s1" "t1" "zzz"
      (by decide) (by decide) (by decide)).2.2 "Alpha"⟩

/-- C6: a non-blank requested string that fuzzy-resolves to exactly one
agent makes `api_set_thread_agent` persist the resolved id — a
registered id, never the raw query — into the thread settings, and the
response names that id; a `None` or blank request clears the stored
agent and the response is the registry default with `is_default` true. -/
theorem set_thread_agent_persists_resolved (reg : AgentRegistry) (store : Store)
    (sid tid : String) (hwf : RegistryWF reg) :
    (∀ q rid, strStrip q ≠ "" → resolve_id reg (strStrip q) true = some rid →
        rid ∈ regKeys reg ∧
        get_thread_settings (api_set_thread_agent reg store sid tid (some q)).1 sid tid =
          { agent := some rid } ∧
        ∃ resp, (api_set_thread_agent reg store sid tid (some q)).2 = Except.ok resp ∧
          resp.agent = rid) ∧
    (get_thread_settings (api_set_thread_agent reg store sid tid none).1 sid tid =
        { agent := none } ∧
      ∃ resp, (api_set_thread_agent reg store sid tid none).2 = Except.ok resp ∧
        resp.agent = reg.default_agent ∧ resp.is_default = true) ∧
    (∀ q, strStrip q = "" →
        get_thread_settings (api_set_thread_agent reg store sid tid (some q)).1 sid tid =
          { agent := none } ∧
        ∃ resp, (api_set_thread_agent reg store sid tid (some q)).2 = Except.ok resp ∧
          resp.agent = reg.default_agent ∧ resp.is_default = true) := by
  obtain ⟨pd, hpd⟩ := mem_lookupAgent hwf.default_mem
  refine ⟨?_, ?_, ?_⟩
  · intro q rid hnb hrid
    obtain ⟨p, hp⟩ := mem_lookupAgent (resolve_id_mem hrid)
    refine ⟨resolve_id_mem hrid, ?_, ?_⟩
    · simp [api_set_thread_agent, pyTruthy, isEmpty_false_of_ne hnb, hrid, hp,
        get_thread_settings, set_thread_settings, lookup_setAssoc_self]
    · refine ⟨{ agent := rid, default_agent := reg.default_agent,
                is_default := rid == reg.default_agent, agent_name := p.name }, ?_, rfl⟩
      simp [api_set_thread_agent, pyTruthy, isEmpty_false_of_ne hnb, hrid, hp]
  · refine ⟨?_, ?_⟩
    · simp [api_set_thread_agent, pyTruthy, hpd,
        get_thread_settings, set_thread_settings, lookup_setAssoc_self]
    · refine ⟨{ agent := reg.default_agent, default_agent := reg.default_agent,
                is_default := true, agent_name := pd.name }, ?_, rfl, rfl⟩
      simp [api_set_thread_agent, pyTruthy, hpd]
  · intro q hb
    have hemp : ("" : String).isEmpty = true := by decide
    refine ⟨?_, ?_⟩
    · simp [api_set_thread_agent, pyTruthy, hb, hemp, hpd,
        get_thread_settings, set_thread_settings, lookup_setAssoc_self]
    · refine ⟨{ agent := reg.default_agent, default_agent := reg.default_agent,
                is_default := true, agent_name := pd.name }, ?_, rfl, rfl⟩
      simp [api_set_thread_agent, pyTruthy, hb, hemp, hpd]

/-- C6 witness: a unique fuzzy match " be " resolving to `beta`, a
`None` reset and a whitespace-only reset against the fixture registry. -/
theorem set_thread_agent_persists_resolved_witness :
    ("beta" ∈ regKeys regW ∧
      get_thread_settings (api_set_thread_agent regW storeGone "s1" "t1" (some " be ")).1
          "s1" "t1" = { agent := some "beta" } ∧
      ∃ resp, (api_set_thread_agent regW storeGone "s1" "t1" (some " be ")).2 =
          Except.ok resp ∧ resp.agent = "beta") ∧
    (get_thread_settings (api_set_thread_agent regW storeGone "s1" "t1" none).1 "s1" "t1" =
        { agent := none } ∧
      ∃ resp, (api_set_thread_agent regW storeGone "s1" "t1" none).2 = Except.ok resp ∧
        resp.agent = regW.default_agent ∧ resp.is_default = true) ∧
    (get_thread_settings (api_set_thread_agent regW storeGone "s1" "t1" (some "  ")).1
        "s1" "t1" = { agent := none } ∧
      ∃ resp, (api_set_thread_agent regW storeGone "s1" "t1" (some "  ")).2 =
          Except.ok resp ∧ resp.agent = regW.default_agent ∧ resp.is_default = true) :=
  ⟨(set_thread_agent_persists_resolved regW storeGone "s1" "t1" regWF).1 " be " "beta"
      (by decide) (by decide),
   (set_thread_agent_persists_resolved regW storeGone "s1" "t1" regWF).2.1,
   (set_thread_agent_persists_resolved regW storeGone "s1" "t1" regWF).2.2 "  " (by decide)⟩

theorem read_env_isEmpty_false {env : String → Option String} {n v : String}
    (h : read_env env n = some v) : v.isEmpty = false := by
  unfold read_env at h
  cases he : env n with
  | none => rw [he] at h; cases h
  | some w =>
      rw [he] at h
      simp only at h
      by_cases hw : (strStrip w).isEmpty = true
      · simp [hw] at h
      · simp [hw] at h
        rw [← h]
        exact Bool.eq_false_iff.mpr hw

theorem first_env_isEmpty_false {env : String → Option String} :
    ∀ {names : List String} {m : String},
      first_env env names = some m → m.isEmpty = false := by
  intro names
  induction names with
  | nil => intro m h; simp [first_env] at h
  | cons n rest ih =>
      intro m h
      unfold first_env at h
      cases he : read_env env n with
      | some v => rw [he] at h; cases h; exact read_env_isEmpty_false he
      | none => rw [he] at h; exact ih h

/-- Environment fixture: `AGENT_MODEL` set to whitespace only,
`LATTICE_MODEL` set to a model name. -/
def envWsMask : String → Option String := fun n =>
  if n = "AGENT_MODEL" then some "  "
  else if n = "LATTICE_MODEL" then some "m" else none

/-- Plugin fixture with no configured default model and one listed model. -/
def pluginListed : AgentPlugin :=
  { id := "a", name := "A", list_models := some (Except.ok ["x"]) }

/-- Plugin fixture whose configured default model needs stripping. -/
def pluginGpt : AgentPlugin := { id := "g", name := "G", default_model := some " gpt " }

/-- C7 counterexample: with a blank configured default, the first
non-blank environment override among AGENT_MODEL then LATTICE_MODEL is
"m", yet the runtime `resolve_default_model` returns the first listed
model "x" — the whitespace-only AGENT_MODEL masks LATTICE_MODEL, so the
claimed precedence step (b) fails on `lattice/server/runtime.py`. -/
theorem runtime_resolve_default_model_skips_env :
    strStrip (pluginListed.default_model.getD "") = "" ∧
    first_env envWsMask ["AGENT_MODEL", "LATTICE_MODEL"] = some "m" ∧
    Runtime.resolve_default_model envWsMask pluginListed = "x" ∧
    Runtime.resolve_default_model envWsMask pluginListed ≠ "m" :=
  ⟨by decide, by decide, by decide, by decide⟩

/-- C7 amended: both `resolve_default_model` variants are total and
follow the precedence (a) stripped configured default if non-blank,
then an environment step, then the first listed model, then the empty
string, with `list_models` failures swallowed; the environment step of
the services variant takes the first non-blank of AGENT_MODEL then
LATTICE_MODEL, while the runtime variant strips the first set non-empty
value and falls through to the model list when that strip leaves it
blank. -/
theorem resolve_default_model_precedence (env : String → Option String)
    (plugin : AgentPlugin) :
    (strStrip (plugin.default_model.getD "") ≠ "" →
        Runtime.resolve_default_model env plugin = strStrip (plugin.default_model.getD "") ∧
        Services.resolve_default_model env plugin = strStrip (plugin.default_model.getD "")) ∧
    (strStrip (plugin.default_model.getD "") = "" →
      (∀ m, first_env env ["AGENT_MODEL", "LATTICE_MODEL"] = some m →
          Services.resolve_default_model env plugin = m) ∧
      (first_env env ["AGENT_MODEL", "LATTICE_MODEL"] = none →
          Services.resolve_default_model env plugin = (list_models_swallow plugin).headD "") ∧
      (strStrip ((pyOr (env "AGENT_MODEL") (env "LATTICE_MODEL")).getD "") ≠ "" →
          Runtime.resolve_default_model env plugin =
            strStrip ((pyOr (env "AGENT_MODEL") (env "LATTICE_MODEL")).getD "")) ∧
      (strStrip ((pyOr (env "AGENT_MODEL") (env "LATTICE_MODEL")).getD "") = "" →
          Runtime.resolve_default_model env plugin = (list_models_swallow plugin).headD "")) ∧
    (plugin.list_models = some (Except.error ()) → list_models_swallow plugin = []) := by
  have hemp : ("" : String).isEmpty = true := by decide
  refine ⟨?_, ?_, ?_⟩
  · intro hc
    have hce := isEmpty_false_of_ne hc
    exact ⟨by simp [Runtime.resolve_default_model, hce],
      by simp [Services.resolve_default_model, hce]⟩
  · intro hc
    refine ⟨?_, ?_, ?_, ?_⟩
    · intro m hm
      have hne := first_env_isEmpty_false hm
      simp [Services.resolve_default_model, hc, hemp, hm, pyTruthy, hne]
    · intro hm
      simp only [Services.resolve_default_model, hc, hemp, hm, pyTruthy,
        Bool.not_true, if_false]
      cases hms : list_models_swallow plugin with
      | nil => simp
      | cons a t => simp
    · intro he
      have hee := isEmpty_false_of_ne he
      simp [Runtime.resolve_default_model, hc, hemp, hee]
    · intro he
      simp only [Runtime.resolve_default_model, hc, hemp, he, Bool.not_true, if_false]
      cases hms : list_models_swallow plugin with
      | nil => simp
      | cons a t => simp
  · intro h
    simp [list_models_swallow, h]

/-- C7 amended witness: the configured default wins for `pluginGpt`; for
`pluginListed` under the fixture environment the services variant
returns the environment model while the runtime variant falls through
to the first listed model. -/
theorem resolve_default_model_precedence_witness :
    (Runtime.resolve_default_model envWsMask pluginGpt = "gpt" ∧
     Services.resolve_default_model envWsMask pluginGpt = "gpt") ∧
    Services.resolve_default_model envWsMask pluginListed = "m" ∧
    Runtime.resolve_default_model envWsMask pluginListed = "x" :=
  ⟨(resolve_default_model_precedence envWsMask pluginGpt).1 (by decide),
   ((resolve_default_model_precedence envWsMask pluginListed).2.1 (by decide)).1
      "m" (by decide),
   ((resolve_default_model_precedence envWsMask pluginListed).2.1 (by decide)).2.2.2
      (by decide)⟩

/-- C8: `set_session_model` with a `None` or blank request clears the
stored override (the stored session model becomes `None` and the
selection reverts to the resolved default); with a non-blank request it
consults `plugin.validate_model` when present, and a rejection
propagates with the plugin message while the store is returned
unchanged — nothing is persisted on rejection. -/
theorem set_session_model_validation (env : String → Option String) (store : Store)
    (sid : String) (plugin : AgentPlugin) :
    (set_session_model env store sid plugin none =
        (set_session_model_store store sid none,
         Except.ok { model := Services.resolve_default_model env plugin,
                     default_model := Services.resolve_default_model env plugin }) ∧
      get_session_model (set_session_model env store sid plugin none).1 sid = none) ∧
    (∀ q, strStrip q = "" →
        set_session_model env store sid plugin (some q) =
          (set_session_model_store store sid none,
           Except.ok { model := Services.resolve_default_model env plugin,
                       default_model := Services.resolve_default_model env plugin }) ∧
        get_session_model (set_session_model env store sid plugin (some q)).1 sid = none) ∧
    (∀ q v msg, plugin.validate_model = some v → strStrip q ≠ "" →
        v (strStrip q) = Except.error msg →
        set_session_model env store sid plugin (some q) = (store, Except.error msg)) := by
  have hemp : ("" : String).isEmpty = true := by decide
  refine ⟨⟨?_, ?_⟩, ?_, ?_⟩
  · simp [set_session_model, pyTruthy]
  · simp [set_session_model, pyTruthy, get_session_model, set_session_model_store,
      lookup_setAssoc_self]
  · intro q hb
    constructor
    · simp [set_session_model, pyTruthy, hb, hemp]
    · simp [set_session_model, pyTruthy, hb, hemp, get_session_model,
        set_session_model_store, lookup_setAssoc_self]
  · intro q v msg hv hnb hrej
    simp [set_session_model, pyTruthy, isEmpty_false_of_ne hnb, hv, hrej]

/-- A plugin fixture with a configured default model and a validator
that accepts only that model. -/
def pluginPicky : AgentPlugin :=
  { id := "p", name := "P", default_model := some "good",
    validate_model := some (fun m =>
      if m = "good" then Except.ok () else Except.error ("bad model " ++ m)) }

/-- C8 witness: clearing by `None`, clearing by a blank string, and a
rejected non-blank request against the picky plugin fixture. -/
theorem set_session_model_validation_witness :
    (set_session_model envWsMask storeGone "s1" pluginPicky none =
        (set_session_model_store storeGone "s1" none,
         Except.ok { model := "good", default_model := "good" }) ∧
      get_session_model (set_session_model envWsMask storeGone "s1" pluginPicky none).1
          "s1" = none) ∧
    (set_session_model envWsMask storeGone "s1" pluginPicky (some " ") =
        (set_session_model_store storeGone "s1" none,
         Except.ok { model := "good", default_model := "good" }) ∧
      get_session_model (set_session_model envWsMask storeGone "s1" pluginPicky
          (some " ")).1 "s1" = none) ∧
    set_session_model envWsMask storeGone "s1" pluginPicky (some "evil") =
      (storeGone, Except.error "bad model evil") :=
  ⟨(set_session_model_validation envWsMask storeGone "s1" pluginPicky).1,
   (set_session_model_validation envWsMask storeGone "s1" pluginPicky).2.1 " " (by decide),
   (set_session_model_validation envWsMask storeGone "s1" pluginPicky).2.2 "evil"
      (fun m => if m = "good" then Except.ok () else Except.error ("bad model " ++ m))
      "bad model evil" rfl (by decide) rfl⟩

/-- C9: clearing a thread fails with the not-found error when the
thread does not exist and the store is unchanged; when it exists the
persisted messages become the empty list while the thread settings
component of the store — including any stored agent selection — is
untouched. -/
theorem clear_thread_frame (store : Store) (sid tid : String) :
    (tid ∉ list_threads store sid →
        api_clear_thread store sid tid = (store, Except.error ThreadApiError.threadNotFound)) ∧
    (tid ∈ list_threads store sid →
        api_clear_thread store sid tid = (save_thread store sid tid [], Except.ok tid) ∧
        (save_thread store sid tid []).threadMessages.lookup (sid, tid) = some [] ∧
        (save_thread store sid tid []).threadSettings = store.threadSettings ∧
        get_thread_settings (save_thread store sid tid []) sid tid =
          get_thread_settings store sid tid) := by
  constructor
  · intro h; simp [api_clear_thread, h]
  · intro h
    refine ⟨by simp [api_clear_thread, h], ?_, rfl, rfl⟩
    simp [save_thread, lookup_setAssoc_self]

/-- A store fixture holding one thread with history and an agent choice. -/
def storeBusy : Store :=
  { threadSettings := [(("s1", "t1"), { agent := some "beta" })],
    threadMessages := [(("s1", "t1"), [UIMessage.mk "user" "hello"])] }

/-- C9 witness: clearing a missing thread errors without touching the
store; clearing the existing thread empties its messages and leaves the
settings — the stored agent — intact. -/
theorem clear_thread_frame_witness :
    api_clear_thread storeBusy "s1" "t9" =
      (storeBusy, Except.error ThreadApiError.threadNotFound) ∧
    (api_clear_thread storeBusy "s1" "t1" =
        (save_thread storeBusy "s1" "t1" [], Except.ok "t1") ∧
      (save_thread storeBusy "s1" "t1" []).threadMessages.lookup ("s1", "t1") = some [] ∧
      (save_thread storeBusy "s1" "t1" []).threadSettings = storeBusy.threadSettings ∧
      get_thread_settings (save_thread storeBusy "s1" "t1" []) "s1" "t1" =
        get_thread_settings storeBusy "s1" "t1") :=
  ⟨(clear_thread_frame storeBusy "s1" "t9").1 (by decide),
   (clear_thread_frame storeBusy "s1" "t1").2 (by decide)⟩

/-- C10: `is_default` is value equality with the resolved default, not
absence of an override.  Explicitly setting the session model to the
string equal to the resolved default persists the override yet the
response carries `is_default = true`; likewise, explicitly setting the
thread agent to the registry default id persists that id into the
thread settings yet the response carries `is_default = true`. -/
theorem is_default_value_equality (env : String → Option String) (reg : AgentRegistry)
    (store : Store) (sid tid : String) (dp : AgentPlugin)
    (hdp : lookupAgent reg reg.default_agent = some dp)
    (hd : Runtime.resolve_default_model env dp ≠ "")
    (hds : strStrip (Runtime.resolve_default_model env dp) =
        Runtime.resolve_default_model env dp)
    (hval : ∀ v, dp.validate_model = some v →
        v (Runtime.resolve_default_model env dp) = Except.ok ())
    (hda : strStrip reg.default_agent = reg.default_agent)
    (hne : reg.default_agent ≠ "")
    (hdm : reg.default_agent ∈ regKeys reg) :
    (get_session_model (api_set_session_model env reg store sid
          (some (Runtime.resolve_default_model env dp))).1 sid =
        some (Runtime.resolve_default_model env dp)) ∧
    ((api_set_session_model env reg store sid
          (some (Runtime.resolve_default_model env dp))).2 =
        Except.ok { model := Runtime.resolve_default_model env dp,
                    default_model := Runtime.resolve_default_model env dp,
                    is_default := true }) ∧
    (get_thread_settings (api_set_thread_agent reg store sid tid
          (some reg.default_agent)).1 sid tid = { agent := some reg.default_agent }) ∧
    (∃ resp, (api_set_thread_agent reg store sid tid (some reg.default_agent)).2 =
        Except.ok resp ∧ resp.agent = reg.default_agent ∧ resp.is_default = true) := by
  have hdE : (Runtime.resolve_default_model env dp).isEmpty = false :=
    isEmpty_false_of_ne hd
  have hrid : resolve_id reg reg.default_agent true = some reg.default_agent :=
    resolve_id_exact hdm true
  have haE : reg.default_agent.isEmpty = false := isEmpty_false_of_ne hne
  refine ⟨?_, ?_, ?_, ?_⟩
  · cases hv : dp.validate_model with
    | none =>
        simp [api_set_session_model, hdp, pyTruthy, hds, hdE, hv, get_session_model,
          set_session_model_store, lookup_setAssoc_self]
    | some v =>
        simp [api_set_session_model, hdp, pyTruthy, hds, hdE, hv, hval v hv,
          get_session_model, set_session_model_store, lookup_setAssoc_self]
  · cases hv : dp.validate_model with
    | none => simp [api_set_session_model, hdp, pyTruthy, hds, hdE, hv]
    | some v => simp [api_set_session_model, hdp, pyTruthy, hds, hdE, hv, hval v hv]
  · simp [api_set_thread_agent, pyTruthy, hda, haE, hrid, hdp, get_thread_settings,
      set_thread_settings, lookup_setAssoc_self]
  · refine ⟨{ agent := reg.default_agent, default_agent := reg.default_agent,
              is_default := reg.default_agent == reg.default_agent, agent_name := dp.name },
      ?_, rfl, by simp⟩
    simp [api_set_thread_agent, pyTruthy, hda, haE, hrid, hdp]

/-- A single-plugin registry fixture whose default agent is the picky
plugin. -/
def regM : AgentRegistry := { agents := [("main", pluginPicky)], default_agent := "main" }

/-- C10 witness: on the single-plugin fixture, setting the session model
to the resolved default "good" and the thread agent to the default id
"main" both persist the override and both report `is_default = true`. -/
theorem is_default_value_equality_witness :
    (get_session_model (api_set_session_model envWsMask regM storeGone "s1"
          (some "good")).1 "s1" = some "good") ∧
    ((api_set_session_model envWsMask regM storeGone "s1" (some "good")).2 =
        Except.ok { model := "good", default_model := "good", is_default := true }) ∧
    (get_thread_settings (api_set_thread_agent regM storeGone "s1" "t1"
          (some "main")).1 "s1" "t1" = { agent := some "main" }) ∧
    (∃ resp, (api_set_thread_agent regM storeGone "s1" "t1" (some "main")).2 =
        Except.ok resp ∧ resp.agent = "main" ∧ resp.is_default = true) :=
  is_default_value_equality envWsMask regM storeGone "s1" "t1" pluginPicky rfl
    (by decide) (by decide)
    (fun v hv => by
      have h2 := Option.some.inj hv
      rw [← h2]
      rfl)
    (by decide) (by decide) (by decide)

end Lattice
